import Mathlib

/-!
Verification of the interior-design client (React/TypeScript frontend) against
its natural-language specification.  The definitions below are a shallow
embedding of `src/frontend/src/App.tsx` and the components under
`src/frontend/src/components/`; the backend orchestrator is not part of the
shown sources, so the few definitions that concern it are modelled from the
specification text and say so in their doc comments.
-/

namespace InteriorDesign

/-- One entry of the activity log, from the `AgentMessage` interface
(`AgentProgress.tsx`) and the `messages` element type in `App.tsx`. -/
structure AgentMessage where
  timestamp : String
  message : String
deriving Repr, DecidableEq

/-- The status payload consumed by the client, from the `AgentStatus`
interface (`App.tsx` lines 14-24 and `AgentProgress.tsx` lines 9-16):
exactly six fields. `progress_percentage` is a JS number, embedded as `Int`. -/
structure AgentStatus where
  status : String
  current_step : String
  steps_completed : List String
  progress_percentage : Int
  messages : List AgentMessage
  errors : List String
deriving Repr, DecidableEq

/-- The `position: \x7bx, y\x7d | null` coordinate pair of a furniture item. -/
structure FurniturePosition where
  x : Int
  y : Int
deriving Repr, DecidableEq

/-- The `FurnitureItem` interface (`App.tsx` lines 31-46, identical copy in
`ResultsSection.tsx` lines 6-21): `title` is the one field whose type is not
a union with `null`; the other thirteen fields are all nullable, embedded as
`Option`. -/
structure FurnitureItem where
  title : String
  price : Option String
  google_link : Option String
  direct_link : Option String
  source : Option String
  delivery : Option String
  product_rating : Option Int
  product_reviews : Option Int
  store_rating : Option Int
  store_reviews : Option Int
  category : Option String
  position : Option FurniturePosition
  image_url : Option String
  local_image_path : Option String
deriving Repr, DecidableEq

/-- The `FinalResults` interface (`App.tsx` lines 48-57).  `design_plan` is
typed `any` in the source; the client never inspects it, so it is embedded as
a `String`. -/
structure FinalResults where
  session_id : String
  original_image : String
  designed_image : String
  design_plan : String
  total_cost_estimate : Int
  furniture_items : List FurnitureItem
  completion_time : Int
  design_description : String
deriving Repr, DecidableEq

/-- The `POST /api/upload` response shape read by `handleUpload`
(`App.tsx` line 110). -/
structure UploadResponse where
  success : Bool
  session_id : String
  file_path : String
  filename : String
deriving Repr, DecidableEq

/-- The `data` object of an axios error response; the client only reads its
`detail` string (`App.tsx` line 91). -/
structure ErrorData where
  detail : Option String
deriving Repr, DecidableEq

/-- An axios error response: `error.response.status` and
`error.response.data`.  Both `data` and its `detail` may be absent, which the
source handles with optional chaining. -/
structure ErrorResponse where
  status : Nat
  data : Option ErrorData
deriving Repr, DecidableEq

/-- An axios request failure as seen by the catch blocks: `error.response` is
absent for network-level failures. -/
structure PollError where
  response : Option ErrorResponse
deriving Repr, DecidableEq

/-- The HTTP requests the client can issue, used to record the requests a
handler performs and their order. -/
inductive Request where
  | getStatus : Request
  | getPlan : Request
  | getResults : Request
  | postUpload : Request
  | postStart : String → Request
  | deleteSession : String → Request
deriving Repr, DecidableEq

/-- The five `useState` cells of `App` (`App.tsx` lines 60-64) plus the
`designSessionId` entry of `localStorage` touched at line 92. -/
structure ClientState where
  sessionId : Option String
  agentStatus : Option AgentStatus
  designPlan : String
  finalResults : Option FinalResults
  isPolling : Bool
  storedSessionId : Option String
deriving Repr, DecidableEq

/-- Character-list test for `pat` being an initial segment of `l`; used to
embed the JavaScript `String.prototype.includes` check of `App.tsx` line 91. -/
def isPrefixList : List Char → List Char → Bool
  | [], _ => true
  | _ :: _, [] => false
  | p :: ps, c :: cs => p == c && isPrefixList ps cs

/-- Character-list substring test: `pat` occurs contiguously inside `l`. -/
def containsSubstr (pat : List Char) : List Char → Bool
  | [] => isPrefixList pat []
  | c :: t => isPrefixList pat (c :: t) || containsSubstr pat t

/-- Embedding of the JavaScript call `s.includes(pat)`. -/
def strIncludes (s pat : String) : Bool :=
  containsSubstr pat.toList s.toList

/-- Specification-level notion of substring containment: some decomposition
of the character list exhibits the pattern contiguously. -/
def SpecContains (s pat : String) : Prop :=
  ∃ pre post, s.toList = pre ++ pat.toList ++ post

/-- The session-expiry classification of a polling failure, from `App.tsx`
line 91: `error.response?.status === 404 ||
error.response?.data?.detail?.includes('not found')`. -/
def sessionNotFound (e : PollError) : Bool :=
  match e.response with
  | none => false
  | some r =>
    r.status == 404 ||
      (match r.data with
       | none => false
       | some d =>
         match d.detail with
         | none => false
         | some s => strIncludes s "not found")

/-- The catch block of the polling effect (`App.tsx` lines 88-97): on an
expired/unknown session it removes `designSessionId` from localStorage,
clears `sessionId` and stops polling; otherwise the state is untouched. -/
def handlePollFailure (st : ClientState) (e : PollError) : ClientState :=
  if sessionNotFound e then
    { st with sessionId := none, isPolling := false, storedSessionId := none }
  else st

/-- The responses the three awaits of one polling tick would receive
(`App.tsx` lines 70-87): the status GET, the plan GET, and the results GET. -/
structure TickEnv where
  statusResp : Except PollError AgentStatus
  planResp : Except PollError String
  resultsResp : Except PollError FinalResults

/-- One iteration of the polling interval body (`App.tsx` lines 70-97),
returning the updated client state and the requests issued, in order.  Any
throwing await transfers control to the catch block (`handlePollFailure`). -/
def runPollTick (st : ClientState) (env : TickEnv) : ClientState × List Request :=
  match env.statusResp with
  | Except.error e => (handlePollFailure st e, [Request.getStatus])
  | Except.ok stat =>
    let st1 := { st with agentStatus := some stat }
    match env.planResp with
    | Except.error e => (handlePollFailure st1 e, [Request.getStatus, Request.getPlan])
    | Except.ok plan =>
      let st2 := { st1 with designPlan := plan }
      if stat.status = "completed" then
        match env.resultsResp with
        | Except.error e =>
          (handlePollFailure st2 e,
            [Request.getStatus, Request.getPlan, Request.getResults])
        | Except.ok res =>
          ({ st2 with finalResults := some res, isPolling := false },
            [Request.getStatus, Request.getPlan, Request.getResults])
      else if stat.status = "error" then
        ({ st2 with isPolling := false }, [Request.getStatus, Request.getPlan])
      else
        (st2, [Request.getStatus, Request.getPlan])

/-- `handleUpload` (`App.tsx` lines 104-129): POST the file, record the
returned `session_id`, POST start for exactly that id, and only then enable
polling.  A failure of either await lands in the catch block, which only
shows a toast. -/
def handleUpload (st : ClientState) (uploadResp : Except Unit UploadResponse)
    (startResp : Except Unit Unit) : ClientState × List Request :=
  match uploadResp with
  | Except.error _ => (st, [Request.postUpload])
  | Except.ok u =>
    let st1 := { st with sessionId := some u.session_id }
    match startResp with
    | Except.error _ =>
      (st1, [Request.postUpload, Request.postStart u.session_id])
    | Except.ok _ =>
      ({ st1 with isPolling := true },
        [Request.postUpload, Request.postStart u.session_id])

/-- `resetAgent` (`App.tsx` lines 131-144): issue DELETE only when a session
id is present, swallow any request error, then unconditionally clear
`sessionId`, `agentStatus`, `designPlan`, `finalResults` and `isPolling`.
`deleteOk` records whether the DELETE succeeded; the source ignores it. -/
def resetAgent (st : ClientState) (deleteOk : Bool) : ClientState × List Request :=
  let reqs := match st.sessionId with
    | some sid => [Request.deleteSession sid]
    | none => []
  ({ st with
      sessionId := none
      agentStatus := none
      designPlan := ""
      finalResults := none
      isPolling := false }, reqs)

/-- The emoji lookup table of `AgentProgress.tsx` lines 31-39, embedded as a
function on the status string (`statusEmoji[status.status]`). -/
def statusEmoji (s : String) : Option String :=
  if s = "idle" then some "💤"
  else if s = "analyzing" then some "🔍"
  else if s = "planning" then some "📝"
  else if s = "shopping" then some "🛍️"
  else if s = "designing" then some "🎨"
  else if s = "completed" then some "✅"
  else if s = "error" then some "❌"
  else none

/-- Modelled from the spec: the seven session states of §3
(`Idle, Analyzing, Planning, Shopping, Designing, Completed, Error`), in
their lowercase wire serialization used by the client. -/
def specSessionStates : List String :=
  ["idle", "analyzing", "planning", "shopping", "designing", "completed", "error"]

/-- Modelled from the spec: the terminal states of §4.2 (`Completed` and
`Error`), in their lowercase wire serialization. -/
def specTerminalStates : List String :=
  ["completed", "error"]

/-- The stop-polling predicate of the polling effect: the two status
comparisons of `App.tsx` lines 79 and 84 that lead to `setIsPolling(false)`. -/
def stopPolling (s : String) : Bool :=
  s == "completed" || s == "error"

/-- The rendered emoji: `statusEmoji[status.status] || '⏳'`
(`AgentProgress.tsx` line 46). -/
def emojiForStatus (s : String) : String :=
  (statusEmoji s).getD "⏳"

/-- The activity-log slice: `status.messages.slice(-5)`
(`AgentProgress.tsx` line 79).  JavaScript `slice(-5)` starts at
`max(length - 5, 0)`, which is `Nat` subtraction. -/
def displayedMessages (m : List AgentMessage) : List AgentMessage :=
  m.drop (m.length - 5)

/-- The data the `AgentProgress` panel shows for a non-null status: emoji,
step label, percentage, completed steps, the sliced activity log, and the
errors section, which is present exactly when `status.errors.length > 0`
(`AgentProgress.tsx` lines 41-105). -/
structure ProgressRender where
  emoji : String
  stepLabel : String
  pct : Int
  stepsDone : List String
  logEntries : List AgentMessage
  errorsSection : Option (List String)
deriving Repr, DecidableEq

/-- The two shapes `AgentProgress` can render: the waiting placeholder for a
null status (`AgentProgress.tsx` lines 23-29), or the progress panel. -/
inductive ProgressView where
  | waitingPlaceholder : ProgressView
  | panel : ProgressRender → ProgressView
deriving Repr, DecidableEq

/-- The `AgentProgress` component (`AgentProgress.tsx`), as a total function
from its `status` prop to what it renders. -/
def renderAgentProgress : Option AgentStatus → ProgressView
  | none => ProgressView.waitingPlaceholder
  | some s =>
    ProgressView.panel
      { emoji := emojiForStatus s.status
        stepLabel := s.current_step
        pct := s.progress_percentage
        stepsDone := s.steps_completed
        logEntries := displayedMessages s.messages
        errorsSection := if s.errors.length > 0 then some s.errors else none }

/-- The six-field tuple view of `AgentStatus`, used to state that the status
payload consists of exactly these fields. -/
def AgentStatus.toTuple (s : AgentStatus) :
    String × String × List String × Int × List AgentMessage × List String :=
  (s.status, s.current_step, s.steps_completed, s.progress_percentage,
    s.messages, s.errors)

/-- Rebuild an `AgentStatus` from the six-field tuple. -/
def AgentStatus.ofTuple
    (t : String × String × List String × Int × List AgentMessage × List String) :
    AgentStatus :=
  ⟨t.1, t.2.1, t.2.2.1, t.2.2.2.1, t.2.2.2.2.1, t.2.2.2.2.2⟩

/-- The elements a furniture card can render, in the order they appear in
`ResultsSection.tsx` lines 86-135. -/
inductive CardElem where
  | cardImage : String → CardElem
  | cardTitle : String → CardElem
  | sourceLine : String → CardElem
  | categoryLine : String → CardElem
  | priceLine : String → CardElem
  | ratingLine : Int → Int → CardElem
  | deliveryLine : String → CardElem
  | googleLinkLine : String → CardElem
deriving Repr, DecidableEq

/-- One furniture card of `ResultsSection.tsx` (lines 86-135), as the list of
elements it renders.  Each `item.field && (...)` guard renders its element
exactly when the field is JavaScript-truthy: non-null and non-empty for the
strings, non-null and non-zero for the rating number; `item.product_reviews
|| 0` falls back to `0`.  The function is total: any combination of null
fields yields a card, always containing the title. -/
def renderFurnitureCard (item : FurnitureItem) : List CardElem :=
  (match item.image_url with
   | some u => if u == "" then [] else [CardElem.cardImage u]
   | none => [])
  ++ [CardElem.cardTitle item.title]
  ++ (match item.source with
      | some s => if s == "" then [] else [CardElem.sourceLine s]
      | none => [])
  ++ (match item.category with
      | some c => if c == "" then [] else [CardElem.categoryLine c]
      | none => [])
  ++ (match item.price with
      | some p => if p == "" then [] else [CardElem.priceLine p]
      | none => [])
  ++ (match item.product_rating with
      | some r =>
        if r == 0 then [] else [CardElem.ratingLine r (item.product_reviews.getD 0)]
      | none => [])
  ++ (match item.delivery with
      | some d => if d == "" then [] else [CardElem.deliveryLine d]
      | none => [])
  ++ (match item.google_link with
      | some g => if g == "" then [] else [CardElem.googleLinkLine g]
      | none => [])

/-- A `FurnitureItem` whose thirteen nullable fields are all null, witnessing
that the type admits every such combination. -/
def nullFurnitureItem (t : String) : FurnitureItem :=
  ⟨t, none, none, none, none, none, none, none, none, none, none, none, none, none⟩

/-- Modelled from the spec: the seven session states of §3/§4.2, as a closed
enumeration.  The backend orchestrator that owns them is not among the shown
sources. -/
inductive SessionStatus where
  | idle : SessionStatus
  | analyzing : SessionStatus
  | planning : SessionStatus
  | shopping : SessionStatus
  | designing : SessionStatus
  | completed : SessionStatus
  | error : SessionStatus
deriving Repr, DecidableEq

/-- Modelled from the spec: the four pipeline stages of §4.2, executed in the
order analyze, plan, shop, design. -/
inductive Stage where
  | analyze : Stage
  | plan : Stage
  | shop : Stage
  | design : Stage
deriving Repr, DecidableEq

/-- Modelled from the spec: the fixed progress-weight table of §4.2 step 3
(Analyze=25, Plan=50, Shop=75, Design=100). -/
def stageWeight : Stage → Nat
  | Stage.analyze => 25
  | Stage.plan => 50
  | Stage.shop => 75
  | Stage.design => 100

/-- Modelled from the spec: the stage names appended to `steps_completed`
(§8 scenario: `["analyze","plan","shop","design"]`). -/
def stageName : Stage → String
  | Stage.analyze => "analyze"
  | Stage.plan => "plan"
  | Stage.shop => "shop"
  | Stage.design => "design"

/-- Modelled from the spec: the status the session transitions to when a
stage succeeds (§4.2 step 3: the next stage's name, or `Completed` after
Design). -/
def nextStatus : Stage → SessionStatus
  | Stage.analyze => SessionStatus.planning
  | Stage.plan => SessionStatus.shopping
  | Stage.shop => SessionStatus.designing
  | Stage.design => SessionStatus.completed

/-- Modelled from the spec: the stage executing while the session is in a
given status (§4.2); terminal states and `Idle` run no stage. -/
def currentStageOf : SessionStatus → Option Stage
  | SessionStatus.analyzing => some Stage.analyze
  | SessionStatus.planning => some Stage.plan
  | SessionStatus.shopping => some Stage.shop
  | SessionStatus.designing => some Stage.design
  | _ => none

/-- Modelled from the spec: the progress percentage a session shows on
entering each non-error status (0 before any stage finished, then the weight
of the last finished stage). -/
def statusBaseProgress : SessionStatus → Nat
  | SessionStatus.idle => 0
  | SessionStatus.analyzing => 0
  | SessionStatus.planning => 25
  | SessionStatus.shopping => 50
  | SessionStatus.designing => 75
  | SessionStatus.completed => 100
  | SessionStatus.error => 0

/-- Modelled from the spec: the slice of session state the C4 invariants
speak about (§3): status, completed steps and progress percentage. -/
structure OrchSession where
  status : SessionStatus
  steps_completed : List String
  progress : Nat
deriving Repr, DecidableEq

/-- Modelled from the spec: one stage execution of the orchestrator (§4.2
steps 3-4).  When a stage is active, success merges its output: append the
stage name, advance progress to the stage weight and move to the next
status; failure sets `status = Error` and stops.  In `Idle`, `Completed` or
`Error` no stage executes and the session is unchanged. -/
def orchStep (s : OrchSession) (ok : Bool) : OrchSession :=
  match currentStageOf s.status with
  | none => s
  | some stg =>
    if ok then
      { status := nextStatus stg
        steps_completed := s.steps_completed ++ [stageName stg]
        progress := stageWeight stg }
    else { s with status := SessionStatus.error }

/-- Modelled from the spec: a run of the orchestrator over a list of stage
outcomes, each element telling whether the stage then active succeeded. -/
def orchRun (s : OrchSession) (oks : List Bool) : OrchSession :=
  oks.foldl orchStep s

/-- Well-formedness of a session snapshot: outside the `Error` state the
progress percentage is the one determined by the status.  Every snapshot
reachable from a fresh `Idle` session satisfies this. -/
def OrchWF (s : OrchSession) : Prop :=
  s.status ≠ SessionStatus.error → s.progress = statusBaseProgress s.status

lemma isPrefixList_iff (pat : List Char) : ∀ l : List Char,
    isPrefixList pat l = true ↔ ∃ rest, l = pat ++ rest := by
  induction pat with
  | nil =>
    intro l
    simp [isPrefixList]
  | cons p ps ih =>
    intro l
    cases l with
    | nil => simp [isPrefixList]
    | cons c cs =>
      rw [isPrefixList]
      simp only [Bool.and_eq_true, beq_iff_eq, ih, List.cons_append, List.cons.injEq]
      constructor
      · rintro ⟨hpc, rest, hrest⟩
        exact ⟨rest, hpc.symm, hrest⟩
      · rintro ⟨rest, hcp, hrest⟩
        exact ⟨hcp.symm, rest, hrest⟩

lemma containsSubstr_iff (pat : List Char) : ∀ l : List Char,
    containsSubstr pat l = true ↔ ∃ pre post, l = pre ++ pat ++ post := by
  intro l
  induction l with
  | nil =>
    rw [containsSubstr, isPrefixList_iff]
    constructor
    · rintro ⟨rest, h⟩
      obtain ⟨h1, h2⟩ := List.append_eq_nil.mp h.symm
      exact ⟨[], [], by simp [h1, h2]⟩
    · rintro ⟨pre, post, h⟩
      obtain ⟨h1, h2⟩ := List.append_eq_nil.mp h.symm
      obtain ⟨h3, h4⟩ := List.append_eq_nil.mp h1
      exact ⟨[], by simp [h4]⟩
  | cons c t ih =>
    rw [containsSubstr, Bool.or_eq_true, isPrefixList_iff, ih]
    constructor
    · rintro (⟨rest, h⟩ | ⟨pre, post, h⟩)
      · exact ⟨[], rest, by simpa using h⟩
      · exact ⟨c :: pre, post, by simp [h]⟩
    · rintro ⟨pre, post, h⟩
      cases pre with
      | nil => exact Or.inl ⟨post, by simpa using h⟩
      | cons x xs =>
        rw [List.cons_append, List.cons_append] at h
        injection h with h1 h2
        exact Or.inr ⟨xs, post, by simpa using h2⟩

lemma strIncludes_iff (s pat : String) : strIncludes s pat = true ↔ SpecContains s pat := by
  rw [strIncludes, containsSubstr_iff, SpecContains]

lemma sessionNotFound_iff (e : PollError) :
    sessionNotFound e = true ↔
      ∃ r, e.response = some r ∧
        (r.status = 404 ∨
          ∃ d s, r.data = some d ∧ d.detail = some s ∧ SpecContains s "not found") := by
  obtain ⟨resp⟩ := e
  cases resp with
  | none => simp [sessionNotFound]
  | some r =>
    obtain ⟨rs, rd⟩ := r
    cases rd with
    | none => simp [sessionNotFound]
    | some d =>
      obtain ⟨det⟩ := d
      cases det with
      | none => simp [sessionNotFound]
      | some s => simp [sessionNotFound, strIncludes_iff]

lemma statusEmoji_none_of_not_mem (s : String) (h : s ∉ specSessionStates) :
    statusEmoji s = none := by
  simp [specSessionStates] at h
  obtain ⟨h1, h2, h3, h4, h5, h6, h7⟩ := h
  simp [statusEmoji, h1, h2, h3, h4, h5, h6, h7]

lemma base_le_weight (st : SessionStatus) (stg : Stage)
    (h : currentStageOf st = some stg) :
    statusBaseProgress st ≤ stageWeight stg := by
  cases st <;> simp [currentStageOf] at h <;> subst h <;> decide

lemma orchStep_progress_mono (s : OrchSession) (ok : Bool) (h : OrchWF s) :
    s.progress ≤ (orchStep s ok).progress := by
  cases hcs : currentStageOf s.status with
  | none => simp [orchStep, hcs]
  | some stg =>
    cases ok with
    | false => simp [orchStep, hcs]
    | true =>
      have hne : s.status ≠ SessionStatus.error := by
        intro he
        rw [he] at hcs
        simp [currentStageOf] at hcs
      have hp := h hne
      simp [orchStep, hcs]
      rw [hp]
      exact base_le_weight s.status stg hcs

lemma orchStep_wf (s : OrchSession) (ok : Bool) (h : OrchWF s) : OrchWF (orchStep s ok) := by
  cases hcs : currentStageOf s.status with
  | none => simpa [orchStep, hcs] using h
  | some stg =>
    cases ok with
    | false =>
      intro hne
      simp [orchStep, hcs] at hne
    | true =>
      intro _
      simp [orchStep, hcs]
      cases stg <;> rfl

lemma orchRun_progress_mono (oks : List Bool) (s : OrchSession) (h : OrchWF s) :
    s.progress ≤ (orchRun s oks).progress := by
  induction oks generalizing s with
  | nil => simp [orchRun]
  | cons ok rest ih =>
    have h1 := orchStep_progress_mono s ok h
    have h2 := ih (orchStep s ok) (orchStep_wf s ok h)
    simp only [orchRun, List.foldl_cons] at h2 ⊢
    omega

/-- Claim C1: for every failed polling request, the client classifies the
session as expired/unknown — and then removes the stored session id, clears
`sessionId` and stops polling — exactly when the HTTP response status is 404
or the response's detail string contains the substring "not found"; on any
other polling failure the state, in particular `sessionId` and `isPolling`,
is left unchanged and polling continues. -/
theorem claim_C1 (st : ClientState) (e : PollError) :
    (sessionNotFound e = true ↔
      ∃ r, e.response = some r ∧
        (r.status = 404 ∨
          ∃ d s, r.data = some d ∧ d.detail = some s ∧ SpecContains s "not found")) ∧
    (sessionNotFound e = true →
      handlePollFailure st e =
        { st with sessionId := none, isPolling := false, storedSessionId := none }) ∧
    (sessionNotFound e = false → handlePollFailure st e = st) := by
  refine ⟨sessionNotFound_iff e, ?_, ?_⟩
  · intro h
    simp [handlePollFailure, h]
  · intro h
    simp [handlePollFailure, h]

/-- Witness for C1: a 404 response with no body is classified as expired and
resets the client state. -/
theorem claim_C1_witness :
    handlePollFailure ⟨some "sid1", none, "", none, true, some "sid1"⟩ ⟨some ⟨404, none⟩⟩ =
      ⟨none, none, "", none, false, none⟩ :=
  (claim_C1 ⟨some "sid1", none, "", none, true, some "sid1"⟩ ⟨some ⟨404, none⟩⟩).2.1 rfl

/-- Claim C2: the status strings the client's emoji table gives meaning to
are exactly the spec's seven session states (in their lowercase wire form),
and the stop-polling predicate (the two comparisons that end polling) holds
for a status string exactly when it names one of the spec's terminal states,
Completed and Error. -/
theorem claim_C2 (s : String) :
    ((statusEmoji s).isSome = true ↔ s ∈ specSessionStates) ∧
    (stopPolling s = true ↔ s ∈ specTerminalStates) := by
  constructor
  · constructor
    · intro h
      by_contra hmem
      rw [statusEmoji_none_of_not_mem s hmem] at h
      simp at h
    · intro h
      simp [specSessionStates] at h
      rcases h with h | h | h | h | h | h | h <;> subst h <;> rfl
  · simp [stopPolling, specTerminalStates]

/-- Counterexample to C3 as stated: a tick whose status response reads
"completed" but whose plan request fails issues no results request, because
the thrown plan request jumps to the catch block before the status check. -/
theorem claim_C3_counterexample :
    (Except.ok ⟨"completed", "", [], 0, [], []⟩ :
        Except PollError AgentStatus) = Except.ok ⟨"completed", "", [], 0, [], []⟩ ∧
    Request.getResults ∉
      (runPollTick ⟨some "s1", none, "", none, true, some "s1"⟩
        ⟨Except.ok ⟨"completed", "", [], 0, [], []⟩, Except.error ⟨none⟩,
          Except.ok ⟨"", "", "", "", 0, [], 0, ""⟩⟩).2 := by
  refine ⟨rfl, ?_⟩
  decide

/-- Claim C3 (amended): in every polling tick in which the status and plan
requests both succeed, the client issues a GET to the results endpoint iff
the status response's status equals "completed"; for a status of "error" it
stops polling without requesting results, and for every other status it
neither requests results nor stops polling. -/
theorem claim_C3 (st : ClientState) (env : TickEnv) (stat : AgentStatus) (plan : String)
    (hs : env.statusResp = Except.ok stat) (hp : env.planResp = Except.ok plan) :
    (Request.getResults ∈ (runPollTick st env).2 ↔ stat.status = "completed") ∧
    (stat.status = "error" →
      (runPollTick st env).1.isPolling = false ∧
        Request.getResults ∉ (runPollTick st env).2) ∧
    (stat.status ≠ "completed" → stat.status ≠ "error" →
      (runPollTick st env).1.isPolling = st.isPolling ∧
        Request.getResults ∉ (runPollTick st env).2) := by
  obtain ⟨sr, pr, rr⟩ := env
  simp only at hs hp
  subst hs
  subst hp
  by_cases hc : stat.status = "completed"
  · cases rr <;> simp [runPollTick, hc]
  · by_cases he : stat.status = "error"
    · simp [runPollTick, hc, he]
    · simp [runPollTick, hc, he]

/-- Witness for C3: a successful tick whose status is "error" stops polling
and does not request results. -/
theorem claim_C3_witness :
    (runPollTick ⟨some "s2", none, "", none, true, some "s2"⟩
        ⟨Except.ok ⟨"error", "step", [], 0, [], []⟩, Except.ok "p",
          Except.ok ⟨"", "", "", "", 0, [], 0, ""⟩⟩).1.isPolling = false :=
  ((claim_C3 _ _ _ _ rfl rfl).2.1 rfl).1

/-- Claim C4 (spec-modelled, the orchestrator is not among the shown
sources): on every well-formed session snapshot, progress is non-decreasing
under a stage step and under any run of steps, well-formedness is preserved,
and once the status is Error no stage executes and the snapshot — status,
steps_completed and progress — never changes again. -/
theorem claim_C4 (s : OrchSession) (ok : Bool) (oks : List Bool) (h : OrchWF s) :
    s.progress ≤ (orchStep s ok).progress ∧
    OrchWF (orchStep s ok) ∧
    s.progress ≤ (orchRun s oks).progress ∧
    (s.status = SessionStatus.error →
      orchStep s ok = s ∧ currentStageOf s.status = none) :=
  ⟨orchStep_progress_mono s ok h, orchStep_wf s ok h, orchRun_progress_mono oks s h,
    fun he => ⟨by simp [orchStep, he, currentStageOf], by simp [he, currentStageOf]⟩⟩

/-- Witness for C4: a session that failed after the analyze stage is frozen
by further steps. -/
theorem claim_C4_witness :
    orchStep ⟨SessionStatus.error, ["analyze"], 25⟩ true =
      ⟨SessionStatus.error, ["analyze"], 25⟩ :=
  ((claim_C4 ⟨SessionStatus.error, ["analyze"], 25⟩ true []
      (fun hne => absurd rfl hne)).2.2.2 rfl).1

/-- Claim C5: in the FurnitureItem record, title is the only non-nullable
field; the other thirteen fields all admit null simultaneously, and the card
rendering is total over any such combination — it always contains the title,
and on the all-null item it is exactly the title. -/
theorem claim_C5 (item : FurnitureItem) (t : String) :
    CardElem.cardTitle item.title ∈ renderFurnitureCard item ∧
    renderFurnitureCard (nullFurnitureItem t) = [CardElem.cardTitle t] ∧
    (nullFurnitureItem t).title = t := by
  refine ⟨?_, rfl, rfl⟩
  simp [renderFurnitureCard]

/-- Claim C6: handleUpload first POSTs the upload, then POSTs start for
exactly the returned session id, and enables polling iff both calls
succeeded; when the upload fails no start is issued, and on any failure
polling is never enabled. -/
theorem claim_C6 (st : ClientState) (u : Except Unit UploadResponse)
    (r : Except Unit Unit) (h : st.isPolling = false) :
    ((handleUpload st u r).1.isPolling = true ↔
      (∃ resp, u = Except.ok resp) ∧ r = Except.ok ()) ∧
    (∀ resp, u = Except.ok resp →
      (handleUpload st u r).2 = [Request.postUpload, Request.postStart resp.session_id] ∧
        (handleUpload st u r).1.sessionId = some resp.session_id) ∧
    (u = Except.error () → (handleUpload st u r).2 = [Request.postUpload]) := by
  cases u <;> cases r <;> simp [handleUpload, h]

/-- Witness for C6: a successful upload of session id sid9 followed by a
successful start enables polling and issues the two POSTs in order. -/
theorem claim_C6_witness :
    (handleUpload ⟨none, none, "", none, false, none⟩
        (Except.ok ⟨true, "sid9", "p", "f"⟩) (Except.ok ())).1.isPolling = true ∧
    (handleUpload ⟨none, none, "", none, false, none⟩
        (Except.ok ⟨true, "sid9", "p", "f"⟩) (Except.ok ())).2 =
      [Request.postUpload, Request.postStart "sid9"] :=
  ⟨((claim_C6 ⟨none, none, "", none, false, none⟩ (Except.ok ⟨true, "sid9", "p", "f"⟩)
        (Except.ok ()) rfl).1).mpr ⟨⟨⟨true, "sid9", "p", "f"⟩, rfl⟩, rfl⟩,
    ((claim_C6 ⟨none, none, "", none, false, none⟩ (Except.ok ⟨true, "sid9", "p", "f"⟩)
        (Except.ok ()) rfl).2.1 ⟨true, "sid9", "p", "f"⟩ rfl).1⟩

/-- Claim C7: the activity log shows exactly the last min(5, length) entries
of the messages list, in their original order, and the full list is
recoverable — the displayed slice is the suffix completing the untouched
prefix, so N = 5 in the spec's last-N display. -/
theorem claim_C7 (m : List AgentMessage) :
    (displayedMessages m).length = min 5 m.length ∧
    m.take (m.length - 5) ++ displayedMessages m = m := by
  constructor
  · simp only [displayedMessages, List.length_drop]
    omega
  · exact List.take_append_drop _ m

/-- Claim C8: the status payload is exactly the six listed fields — it is in
bijection with the (status, current_step, steps_completed,
progress_percentage, messages, errors) tuple, and the progress rendering
factors through that tuple, so no other field is needed. -/
theorem claim_C8 :
    (∀ t, AgentStatus.toTuple (AgentStatus.ofTuple t) = t) ∧
    (∀ s, AgentStatus.ofTuple (AgentStatus.toTuple s) = s) ∧
    ∃ f : String × String × List String × Int × List AgentMessage × List String →
        ProgressView,
      ∀ s, renderAgentProgress (some s) = f (AgentStatus.toTuple s) :=
  ⟨fun _ => rfl, fun _ => rfl,
    ⟨fun t => renderAgentProgress (some (AgentStatus.ofTuple t)), fun _ => rfl⟩⟩

/-- Claim C9: after resetAgent the client state has sessionId, agentStatus
and finalResults null, designPlan empty and isPolling false, regardless of
the DELETE outcome; the DELETE is issued exactly when a session id was
present, and for that id. -/
theorem claim_C9 (st : ClientState) (deleteOk : Bool) :
    (resetAgent st deleteOk).1.sessionId = none ∧
    (resetAgent st deleteOk).1.agentStatus = none ∧
    (resetAgent st deleteOk).1.designPlan = "" ∧
    (resetAgent st deleteOk).1.finalResults = none ∧
    (resetAgent st deleteOk).1.isPolling = false ∧
    resetAgent st true = resetAgent st false ∧
    ((resetAgent st deleteOk).2 = [] ↔ st.sessionId = none) ∧
    (∀ sid, st.sessionId = some sid →
      (resetAgent st deleteOk).2 = [Request.deleteSession sid]) := by
  cases hsid : st.sessionId <;> simp [resetAgent, hsid]

/-- Witness for C9: resetting a live session issues its DELETE. -/
theorem claim_C9_witness :
    (resetAgent ⟨some "sid3", none, "p", none, true, some "sid3"⟩ false).2 =
      [Request.deleteSession "sid3"] :=
  (claim_C9 ⟨some "sid3", none, "p", none, true, some "sid3"⟩
      false).2.2.2.2.2.2.2 "sid3" rfl

/-- Claim C10: AgentProgress is total over its input — a null status renders
the waiting placeholder, a status string outside the seven known names falls
back to the hourglass emoji, and the errors section is rendered iff the
errors list is non-empty. -/
theorem claim_C10 :
    renderAgentProgress none = ProgressView.waitingPlaceholder ∧
    (∀ s : String, s ∉ specSessionStates → emojiForStatus s = "⏳") ∧
    (∀ a : AgentStatus, ∃ r, renderAgentProgress (some a) = ProgressView.panel r ∧
      (r.errorsSection = none ↔ a.errors = [])) := by
  refine ⟨rfl, ?_, ?_⟩
  · intro s hs
    simp [emojiForStatus, statusEmoji_none_of_not_mem s hs]
  · intro a
    refine ⟨_, rfl, ?_⟩
    cases herr : a.errors <;> simp [herr]

/-- Witness for C10: the unknown status string "loading" falls back to the
hourglass emoji. -/
theorem claim_C10_witness : emojiForStatus "loading" = "⏳" :=
  claim_C10.2.1 "loading" (by decide)
